import Mathlib

/-!
Shallow embedding of the authentication core of the `acquisitions` repository:
the cookie helper (`src/utils/cookies.js`), the validation-error formatter and
auth controllers (`src/utils/format.js`), the auth service (`createUser`,
`authenticateUser`) and the Arcjet security middleware
(`src/middleware/security.middleware.js`).

External collaborators (bcrypt, the JWT signer, the zod schemas, the Arcjet
decision service, the HTTP layer) enter the model as explicit parameters or as
plain data: the awaited result of an external call is a parameter of the
function that awaits it.  JavaScript exceptions are modelled with `Except`;
an exception value carries its `message` string, which is all the code ever
inspects.  Response bodies are modelled as JSON trees, so equal trees
serialize to byte-identical bodies.
-/

/-- JSON values, as produced by `res.json(...)`.  Object fields are kept in
insertion order, matching `JSON.stringify` of an object literal. -/
inductive Json where
  | str (s : String)
  | num (n : Nat)
  | obj (fields : List (String × Json))

/-- A thrown JavaScript `Error`; the code only ever inspects `message`. -/
structure JsError where
  message : String
deriving DecidableEq, Repr

/-- The fixed cookie attributes produced by `cookies.getOptions`. -/
structure CookieAttrs where
  httpOnly : Bool
  secure : Bool
  sameSite : String
  maxAge : Nat
deriving DecidableEq, Repr

/-- A per-call `options` object for `cookies.set` / `cookies.clear`; `none`
means the key is absent, so the spread `{...getOptions(), ...options}` keeps
the default. -/
structure CookieOverrides where
  httpOnly : Option Bool := none
  secure : Option Bool := none
  sameSite : Option String := none
  maxAge : Option Nat := none
deriving DecidableEq, Repr

/-- `cookies.getOptions` from `src/utils/cookies.js`: `httpOnly: true`,
`secure: process.env.NODE_ENV === 'production'`, `sameSite: 'Lax'`,
`maxAge: 15 * 60 * 1000` (milliseconds).  `nodeEnv` is the value of
`process.env.NODE_ENV`. -/
def cookies.getOptions (nodeEnv : String) : CookieAttrs :=
  { httpOnly := true
    secure := nodeEnv == "production"
    sameSite := "Lax"
    maxAge := 15 * 60 * 1000 }

/-- The object spread `{ ...base, ...o }`: each key present in `o` overrides
the value from `base`. -/
def spreadAttrs (base : CookieAttrs) (o : CookieOverrides) : CookieAttrs :=
  { httpOnly := o.httpOnly.getD base.httpOnly
    secure := o.secure.getD base.secure
    sameSite := o.sameSite.getD base.sameSite
    maxAge := o.maxAge.getD base.maxAge }

/-- One `res.cookie(name, value, attrs)` effect. -/
structure SetCookie where
  name : String
  value : String
  attrs : CookieAttrs
deriving DecidableEq, Repr

/-- One `res.clearCookie(name, attrs)` effect. -/
structure ClearCookie where
  name : String
  attrs : CookieAttrs
deriving DecidableEq, Repr

/-- `cookies.set` from `src/utils/cookies.js`:
`res.cookie(name, value, { ...cookies.getOptions(), ...options })`. -/
def cookies.set (nodeEnv name value : String) (options : CookieOverrides) : SetCookie :=
  { name := name, value := value
    attrs := spreadAttrs (cookies.getOptions nodeEnv) options }

/-- `cookies.clear` from `src/utils/cookies.js`:
`res.clearCookie(name, { ...cookies.getOptions(), ...options })`. -/
def cookies.clear (nodeEnv name : String) (options : CookieOverrides) : ClearCookie :=
  { name := name
    attrs := spreadAttrs (cookies.getOptions nodeEnv) options }

/-- An HTTP response assembled by a controller: status, JSON body, and the
cookie effects applied to `res` before it was sent. -/
structure HttpResponse where
  status : Nat
  body : Json
  setCookies : List SetCookie
  clearedCookies : List ClearCookie

/-- Outcome of a controller: either a response was sent, or the error was
forwarded with `next(error)` to the generic error handler. -/
inductive CtrlResult where
  | respond (r : HttpResponse)
  | nextErr (e : JsError)

/-- A persisted row of the `users` relation
(`id, name, email, password, role, createdAt, updatedAt`). -/
structure UserRec where
  id : Nat
  name : String
  email : String
  password : String
  role : String
  createdAt : Nat
  updatedAt : Nat
deriving DecidableEq, Repr

/-- The projection `createUser` returns, per its `.returning({...})` clause:
`{id, name, email, role, created_at}` — no password hash. -/
structure PublicUser where
  id : Nat
  name : String
  email : String
  role : String
  created_at : Nat
deriving DecidableEq, Repr

/-- The object `authenticateUser` returns: the row with the `password` field
destructured away (`const { password: _password, ...safeUser } = user`). -/
structure SafeUser where
  id : Nat
  name : String
  email : String
  role : String
  createdAt : Nat
  updatedAt : Nat
deriving DecidableEq, Repr

/-- The database state: the `users` rows, the next serial `id`, and the
current timestamp used for `createdAt` / `updatedAt` defaults. -/
structure Database where
  rows : List UserRec
  nextId : Nat
  now : Nat

/-- `hashPassword` from the auth service: `bcrypt.hash(password, 10)`,
rethrown as `Error('Password hashing failed')` when bcrypt itself fails.
`bcryptHash` is the external bcrypt call; `none` models its failure. -/
def hashPassword (bcryptHash : String → Option String) (password : String) :
    Except JsError String :=
  match bcryptHash password with
  | some h => Except.ok h
  | none => Except.error { message := "Password hashing failed" }

/-- `comparePassword` from the auth service: `bcrypt.compare`, rethrown as
`Error('Password comparison failed')` on internal bcrypt failure; a mismatch
is a normal `false`, not an error. -/
def comparePassword (bcryptCompare : String → String → Option Bool)
    (password hashedPassword : String) : Except JsError Bool :=
  match bcryptCompare password hashedPassword with
  | some b => Except.ok b
  | none => Except.error { message := "Password comparison failed" }

/-- `createUser` from the auth service: select rows with the given email
(limit 1); if any exists, throw the sentinel `Error('user already exists')`;
otherwise hash the password, insert the row (id assigned serially, `role`
defaulting to `'user'`), and return the public projection together with the
new database state.  The catch block rethrows every error unchanged, so it
does not appear in the model. -/
def createUser (bcryptHash : String → Option String) (db : Database)
    (name email password : String) (role : Option String) :
    Except JsError (PublicUser × Database) :=
  let existingUser := (db.rows.filter (fun u => u.email == email)).take 1
  if existingUser.length > 0 then
    Except.error { message := "user already exists" }
  else
    match hashPassword bcryptHash password with
    | Except.error e => Except.error e
    | Except.ok password_hash =>
      let r := role.getD "user"
      let newRow : UserRec :=
        { id := db.nextId, name := name, email := email, password := password_hash
          role := r, createdAt := db.now, updatedAt := db.now }
      Except.ok
        ({ id := newRow.id, name := newRow.name, email := newRow.email
           role := newRow.role, created_at := newRow.createdAt },
         { rows := db.rows ++ [newRow], nextId := db.nextId + 1, now := db.now })

/-- `authenticateUser` from the auth service: select by email (limit 1);
absent user or password mismatch both throw `Error('invalid credentials')`
after an info log that names the distinct cause; on match, return the row
without its `password` field.  The catch block rethrows `invalid credentials`
silently and logs any other error before rethrowing it.  The second
component collects the log lines emitted during the call. -/
def authenticateUser (bcryptCompare : String → String → Option Bool)
    (db : Database) (email password : String) :
    Except JsError SafeUser × List String :=
  match (db.rows.filter (fun u => u.email == email)).take 1 with
  | [] =>
      (Except.error { message := "invalid credentials" },
       ["Authentication failed: user not found for email " ++ email])
  | user :: _ =>
      match comparePassword bcryptCompare password user.password with
      | Except.error e =>
          (Except.error e, ["Authenticate user error: " ++ e.message])
      | Except.ok passwordMatches =>
          if passwordMatches then
            (Except.ok
              { id := user.id, name := user.name, email := user.email
                role := user.role, createdAt := user.createdAt
                updatedAt := user.updatedAt },
             ["User authenticated with id: " ++ toString user.id ++
              ", email: " ++ user.email])
          else
            (Except.error { message := "invalid credentials" },
             ["Authentication failed: invalid password for email " ++ email])

/-- A zod validation error: the list of issue messages. -/
structure ZodError where
  issues : List String
deriving DecidableEq, Repr

/-- The result of `schema.safeParse(req.body)`: either parsed data or a
`ZodError`. -/
inductive SafeParseResult (α : Type) where
  | success (data : α)
  | failure (error : ZodError)

/-- `formatValidator` from `src/utils/format.js`.  Its parameter is named
`schema`, but every line of its body reads a variable `errors` that is bound
nowhere in the module, so in JavaScript the first line raises
`ReferenceError: errors is not defined` whatever the argument is.  The
embedding therefore throws that error unconditionally. -/
def formatValidator (schema : ZodError) : Except JsError String :=
  Except.error { message := "errors is not defined" }

/-- The parsed body of a sign-up request (`role` is optional). -/
structure SignupData where
  name : String
  email : String
  password : String
  role : Option String
deriving DecidableEq, Repr

/-- The parsed body of a sign-in request. -/
structure SigninData where
  email : String
  password : String
deriving DecidableEq, Repr

/-- The `try` block of the `signup` controller.  `signToken` is the external
`jwttoken.sign({id, email, role})`; `validationResult` is the awaited
`signUpSchema.safeParse(req.body)`. -/
def signupTry (bcryptHash : String → Option String)
    (signToken : Nat → String → String → String) (nodeEnv : String)
    (validationResult : SafeParseResult SignupData) (db : Database) :
    Except JsError (HttpResponse × Database) :=
  match validationResult with
  | SafeParseResult.failure err =>
      match formatValidator err with
      | Except.error e => Except.error e
      | Except.ok details =>
          Except.ok
            ({ status := 400
               body := Json.obj
                 [("error", Json.str "validation failed"),
                  ("details", Json.str details)]
               setCookies := [], clearedCookies := [] }, db)
  | SafeParseResult.success d =>
      match createUser bcryptHash db d.name d.email d.password d.role with
      | Except.error e => Except.error e
      | Except.ok (user, db') =>
          let token := signToken user.id user.email user.role
          Except.ok
            ({ status := 201
               body := Json.obj
                 [("message", Json.str "User signed up successfully"),
                  ("user", Json.obj
                    [("id", Json.num user.id),
                     ("name", Json.str user.name),
                     ("email", Json.str user.email),
                     ("role", Json.str user.role)])]
               setCookies := [cookies.set nodeEnv "token" token {}]
               clearedCookies := [] }, db')

/-- The `signup` controller: the `try` block above, plus the `catch` that
answers 409 for the sentinel `user already exists` and forwards anything else
with `next(error)`.  On an error path the database is unchanged. -/
def signup (bcryptHash : String → Option String)
    (signToken : Nat → String → String → String) (nodeEnv : String)
    (validationResult : SafeParseResult SignupData) (db : Database) :
    CtrlResult × Database :=
  match signupTry bcryptHash signToken nodeEnv validationResult db with
  | Except.ok (r, db') => (CtrlResult.respond r, db')
  | Except.error e =>
      if e.message = "user already exists" then
        (CtrlResult.respond
          { status := 409
            body := Json.obj [("error", Json.str "User already exists")]
            setCookies := [], clearedCookies := [] }, db)
      else (CtrlResult.nextErr e, db)

/-- The `try` block of the `signin` controller; the second component collects
the service-level log lines. -/
def signinTry (bcryptCompare : String → String → Option Bool)
    (signToken : Nat → String → String → String) (nodeEnv : String)
    (validationResult : SafeParseResult SigninData) (db : Database) :
    Except JsError HttpResponse × List String :=
  match validationResult with
  | SafeParseResult.failure err =>
      match formatValidator err with
      | Except.error e => (Except.error e, [])
      | Except.ok details =>
          (Except.ok
            { status := 400
              body := Json.obj
                [("error", Json.str "validation failed"),
                 ("details", Json.str details)]
              setCookies := [], clearedCookies := [] }, [])
  | SafeParseResult.success d =>
      match authenticateUser bcryptCompare db d.email d.password with
      | (Except.error e, logs) => (Except.error e, logs)
      | (Except.ok user, logs) =>
          let token := signToken user.id user.email user.role
          (Except.ok
            { status := 200
              body := Json.obj
                [("message", Json.str "User signed in successfully"),
                 ("user", Json.obj
                   [("id", Json.num user.id),
                    ("name", Json.str user.name),
                    ("email", Json.str user.email),
                    ("role", Json.str user.role)])]
              setCookies := [cookies.set nodeEnv "token" token {}]
              clearedCookies := [] },
           logs ++ ["User signed in with email: " ++ d.email ++
                    ", role: " ++ user.role])

/-- The `signin` controller: the `try` block above plus the `catch` that
answers a uniform 401 for the sentinel `invalid credentials` and forwards
anything else with `next(error)`. -/
def signin (bcryptCompare : String → String → Option Bool)
    (signToken : Nat → String → String → String) (nodeEnv : String)
    (validationResult : SafeParseResult SigninData) (db : Database) :
    CtrlResult × List String :=
  match signinTry bcryptCompare signToken nodeEnv validationResult db with
  | (Except.ok r, logs) => (CtrlResult.respond r, logs)
  | (Except.error e, logs) =>
      if e.message = "invalid credentials" then
        (CtrlResult.respond
          { status := 401
            body := Json.obj [("error", Json.str "Invalid email or password")]
            setCookies := [], clearedCookies := [] },
         logs ++ ["Signin error: " ++ e.message])
      else (CtrlResult.nextErr e, logs ++ ["Signin error: " ++ e.message])

/-- The `signout` controller: clear the `token` cookie with the default
attributes and respond 200.  It reads no request state, so it is a pure
function of the environment mode. -/
def signout (nodeEnv : String) : CtrlResult :=
  CtrlResult.respond
    { status := 200
      body := Json.obj [("message", Json.str "User signed out successfully")]
      setCookies := []
      clearedCookies := [cookies.clear nodeEnv "token" {}] }

/-- Client cookie-jar model: a browser applies a response by removing every
cookie a `clearCookie` names and then storing the `Set-Cookie` values. -/
def applyResponse (jar : List (String × String)) (r : HttpResponse) :
    List (String × String) :=
  let afterClear :=
    r.clearedCookies.foldl (fun j c => j.filter (fun kv => kv.fst != c.name)) jar
  afterClear ++ r.setCookies.map (fun s => (s.name, s.value))

/-- The request fields the security middleware reads: `req.user?.role`
(`none` when no user is attached), `req.ip`, the `User-Agent` header,
`req.path` and `req.method`. -/
structure SecRequest where
  userRole : Option String
  ip : String
  userAgent : String
  path : String
  method : String
deriving DecidableEq, Repr

/-- The Arcjet decision: `isDenied()` and the three reason classifiers. -/
structure Decision where
  isDenied : Bool
  reasonIsBot : Bool
  reasonIsShield : Bool
  reasonIsRateLimit : Bool
deriving DecidableEq, Repr

/-- The sliding-window rule the middleware builds and attaches with
`aj.withRule(slidingWindow({...}))`.  `max` is `none` when the role matched
no `switch` case and `limit` stayed `undefined`. -/
structure RuleConfig where
  mode : String
  interval : String
  max : Option Nat
  name : String
deriving DecidableEq, Repr

/-- One logger call: level, message, and the structured metadata fields in
the order they appear in the object literal. -/
structure LogEntry where
  level : String
  msg : String
  fields : List (String × String)
deriving DecidableEq, Repr

/-- The middleware either sends a response or calls `next()` to forward the
request to the downstream handler chain. -/
inductive MWOutcome where
  | respond (status : Nat) (body : Json)
  | forward

/-- Everything observable about one run of the security middleware: the rule
it constructed, its outcome, and its log output. -/
structure MWResult where
  rule : RuleConfig
  outcome : MWOutcome
  logs : List LogEntry

/-- `req.user?.role || 'guest'`: absent user, absent role, or an empty
(falsy) role string all yield `'guest'`. -/
def roleOf (req : SecRequest) : String :=
  match req.userRole with
  | some r => if r == "" then "guest" else r
  | none => "guest"

/-- The `switch (role)` limit: admin 20, user 10, guest 5; any other role
leaves `limit` undefined. -/
def roleLimit (role : String) : Option Nat :=
  if role == "admin" then some 20
  else if role == "user" then some 10
  else if role == "guest" then some 5
  else none

/-- The `switch (role)` message; any other role leaves `message` undefined. -/
def roleMessage (role : String) : Option String :=
  if role == "admin" then some "Admin rate limit exceeded(20 per min). slow down."
  else if role == "user" then some "User rate limit exceeded(10 per min). slow down."
  else if role == "guest" then some "Guest rate limit exceeded(5 per min). slow down."
  else none

/-- A JSON object field for an optional value: `JSON.stringify` drops a key
whose value is `undefined`. -/
def optField (key : String) (v : Option String) : List (String × Json) :=
  match v with
  | some s => [(key, Json.str s)]
  | none => []

/-- `securityMiddleware` from `src/middleware/security.middleware.js`.
`protectResult` is the awaited `client.protect(req)`: `Except.error` models
the call throwing, which is caught by the middleware's own `catch` block
(`console.error` then a 500 response, with no `next()`).  On a decision the
three denial classes are checked in order bot, shield, rate-limit; any other
decision falls through to `next()`. -/
def securityMiddleware (req : SecRequest)
    (protectResult : Except JsError Decision) : MWResult :=
  let role := roleOf req
  let rule : RuleConfig :=
    { mode := "LIVE", interval := "1m", max := roleLimit role
      name := role ++ "-rate-limit" }
  match protectResult with
  | Except.error e =>
      { rule := rule
        outcome := MWOutcome.respond 500 (Json.obj
          [("error", Json.str "Internal server error"),
           ("message", Json.str "An error occurred while processing your request.")])
        logs := [{ level := "console.error"
                   msg := "Security middleware error: " ++ e.message
                   fields := [] }] }
  | Except.ok decision =>
      if decision.isDenied && decision.reasonIsBot then
        { rule := rule
          outcome := MWOutcome.respond 403 (Json.obj
            [("error", Json.str "Access denied for bots"),
             ("message", Json.str "Your request has been identified as coming from a bot and has been blocked.")])
          logs := [{ level := "warn", msg := "Bot request blocked"
                     fields := [("ip", req.ip), ("userAgent", req.userAgent),
                                ("path", req.path)] }] }
      else if decision.isDenied && decision.reasonIsShield then
        { rule := rule
          outcome := MWOutcome.respond 403 (Json.obj
            [("error", Json.str "Access denied for bots"),
             ("message", Json.str "Request blocked by Shield.")])
          logs := [{ level := "warn", msg := "Shield request blocked"
                     fields := [("ip", req.ip), ("userAgent", req.userAgent),
                                ("path", req.path), ("method", req.method)] }] }
      else if decision.isDenied && decision.reasonIsRateLimit then
        { rule := rule
          outcome := MWOutcome.respond 429 (Json.obj
            ([("error", Json.str "Rate limit exceeded")] ++
             optField "message" (roleMessage role)))
          logs := [{ level := "warn", msg := "Rate limit request blocked"
                     fields := [("ip", req.ip), ("userAgent", req.userAgent),
                                ("path", req.path), ("method", req.method)] }] }
      else
        { rule := rule, outcome := MWOutcome.forward, logs := [] }

/-! ## Helper lemmas -/

/-- Filtering out every pair whose key is `key` leaves nothing for `lookup key`
to find. -/
theorem lookup_filter_ne (key : String) (l : List (String × String)) :
    (l.filter (fun kv => kv.fst != key)).lookup key = none := by
  induction l with
  | nil => rfl
  | cons hd tl ih =>
      obtain ⟨k, v⟩ := hd
      by_cases h : k = key
      · simpa [List.filter_cons, h] using ih
      · have hb : (key == k) = false := by
          simp [Ne.symm h]
        simp [List.filter_cons, h, List.lookup, hb, ih]

/-- The two failure log lines of `authenticateUser` can never coincide: they
differ at character 23 (`u` versus `i`), whatever emails are appended. -/
theorem auth_failure_logs_distinct (e1 e2 : String) :
    "Authentication failed: user not found for email " ++ e1 ≠
    "Authentication failed: invalid password for email " ++ e2 := by
  intro h
  have hd : ("Authentication failed: user not found for email ").data ++ e1.data =
      ("Authentication failed: invalid password for email ").data ++ e2.data :=
    congrArg String.data h
  have hA : (("Authentication failed: user not found for email ").data ++
      e1.data)[23]? = some 'u' := by
    rw [List.getElem?_append_left (by decide)]
    decide
  have hB : (("Authentication failed: invalid password for email ").data ++
      e2.data)[23]? = some 'i' := by
    rw [List.getElem?_append_left (by decide)]
    decide
  rw [hd, hB] at hA
  exact (by decide : (some 'i' : Option Char) ≠ some 'u') hA

/-! ## Claim theorems -/

/-- C8: the session cookie manager's `set` and `clear` both apply, absent
per-call overrides, the identical fixed attribute set — `httpOnly = true`,
`secure` exactly when `NODE_ENV` is `production`, `sameSite = Lax`, and a
15-minute (`15 * 60 * 1000` ms) max age; per-call options override these
defaults field by field, and for any given override the attributes used by
`set` and by `clear` coincide. -/
theorem cookie_set_clear_attrs (nodeEnv n v : String) (o : CookieOverrides) :
    (cookies.set nodeEnv n v o).attrs = (cookies.clear nodeEnv n o).attrs ∧
    (cookies.set nodeEnv n v {}).attrs =
      { httpOnly := true, secure := nodeEnv == "production", sameSite := "Lax"
        maxAge := 15 * 60 * 1000 } ∧
    (cookies.set nodeEnv n v o).attrs =
      { httpOnly := o.httpOnly.getD true
        secure := o.secure.getD (nodeEnv == "production")
        sameSite := o.sameSite.getD "Lax"
        maxAge := o.maxAge.getD (15 * 60 * 1000) } :=
  ⟨rfl, rfl, rfl⟩

/-- C9: `signout` is idempotent — whatever cookies the client holds, it
responds 200 and clears the `token` cookie; being a pure function of the
environment mode, a second call returns the same 200 response, and after
applying both responses the client jar holds no `token` cookie. -/
theorem signout_idempotent (nodeEnv : String) (jar : List (String × String)) :
    ∃ r : HttpResponse, signout nodeEnv = CtrlResult.respond r ∧
      r.status = 200 ∧
      (applyResponse (applyResponse jar r) r).lookup "token" = none := by
  refine ⟨_, rfl, rfl, ?_⟩
  simp only [applyResponse, signout, List.foldl_cons, List.foldl_nil,
    List.map_nil, List.append_nil]
  exact lookup_filter_ne "token" _

/-- C7: when the awaited `client.protect` call throws, the gate's own catch
block answers 500 with the generic body, logs the fault via `console.error`,
and never calls `next()` — the request is not forwarded (fail-closed). -/
theorem gate_fail_closed (req : SecRequest) (e : JsError) :
    (securityMiddleware req (Except.error e)).outcome =
      MWOutcome.respond 500 (Json.obj
        [("error", Json.str "Internal server error"),
         ("message", Json.str "An error occurred while processing your request.")]) ∧
    (securityMiddleware req (Except.error e)).outcome ≠ MWOutcome.forward ∧
    (securityMiddleware req (Except.error e)).logs =
      [{ level := "console.error"
         msg := "Security middleware error: " ++ e.message
         fields := [] }] := by
  refine ⟨rfl, ?_, rfl⟩
  intro h
  exact MWOutcome.noConfusion h

/-- C10 (implicit): a denied decision whose reason is classified as none of
bot, shield, or rate-limit falls through all three checks, and the gate calls
`next()`, forwarding the request to the downstream handler chain. -/
theorem unclassified_denial_forwards (req : SecRequest) (d : Decision)
    (hden : d.isDenied = true) (hbot : d.reasonIsBot = false)
    (hshield : d.reasonIsShield = false) (hrl : d.reasonIsRateLimit = false) :
    (securityMiddleware req (Except.ok d)).outcome = MWOutcome.forward := by
  simp [securityMiddleware, hden, hbot, hshield, hrl]

/-- Witness for C10: a concrete denied decision with no recognized reason is
forwarded. -/
theorem unclassified_denial_forwards_witness :
    (securityMiddleware
        { userRole := none, ip := "198.51.100.7", userAgent := "Mozilla/5.0"
          path := "/api/auth/sign-in", method := "POST" }
        (Except.ok
          { isDenied := true, reasonIsBot := false, reasonIsShield := false
            reasonIsRateLimit := false })).outcome = MWOutcome.forward :=
  unclassified_denial_forwards _ _ rfl rfl rfl rfl

/-- C5: the gate derives the tier from the attached role (`guest` when
absent), mapping guest to max 5, user to max 10 and admin to max 20 per
one-minute sliding window, names the rule `role ++ "-rate-limit"`, and a
rate-limit-classified denial yields 429 with the role-specific message. -/
theorem rate_limit_tiers (req : SecRequest) (d : Decision)
    (hrole : roleOf req = "guest" ∨ roleOf req = "user" ∨ roleOf req = "admin") :
    (req.userRole = none → roleOf req = "guest") ∧
    (securityMiddleware req (Except.ok d)).rule =
      { mode := "LIVE", interval := "1m"
        max := some (if roleOf req = "admin" then 20
                     else if roleOf req = "user" then 10 else 5)
        name := roleOf req ++ "-rate-limit" } ∧
    (d.isDenied = true → d.reasonIsBot = false → d.reasonIsShield = false →
      d.reasonIsRateLimit = true →
      (securityMiddleware req (Except.ok d)).outcome =
        MWOutcome.respond 429 (Json.obj
          [("error", Json.str "Rate limit exceeded"),
           ("message", Json.str
             (if roleOf req = "admin" then
                "Admin rate limit exceeded(20 per min). slow down."
              else if roleOf req = "user" then
                "User rate limit exceeded(10 per min). slow down."
              else "Guest rate limit exceeded(5 per min). slow down."))])) := by
  refine ⟨fun h => by simp [roleOf, h], ?_, ?_⟩
  · rcases hrole with h | h | h <;>
      simp [securityMiddleware, h, roleLimit, apply_ite MWResult.rule]
  · intro hden hbot hshield hrl
    rcases hrole with h | h | h <;>
      simp [securityMiddleware, h, hden, hbot, hshield, hrl, roleLimit,
        roleMessage, optField]

/-- Witness for C5: an admin-role request denied by the rate limiter gets the
admin rule (max 20, name `admin-rate-limit`) and a 429 with the admin
message. -/
theorem rate_limit_tiers_witness :
    (securityMiddleware
        { userRole := some "admin", ip := "203.0.113.9", userAgent := "UA"
          path := "/api/auth/sign-in", method := "POST" }
        (Except.ok
          { isDenied := true, reasonIsBot := false, reasonIsShield := false
            reasonIsRateLimit := true })).rule =
      { mode := "LIVE", interval := "1m", max := some 20
        name := "admin-rate-limit" } ∧
    (securityMiddleware
        { userRole := some "admin", ip := "203.0.113.9", userAgent := "UA"
          path := "/api/auth/sign-in", method := "POST" }
        (Except.ok
          { isDenied := true, reasonIsBot := false, reasonIsShield := false
            reasonIsRateLimit := true })).outcome =
      MWOutcome.respond 429 (Json.obj
        [("error", Json.str "Rate limit exceeded"),
         ("message", Json.str "Admin rate limit exceeded(20 per min). slow down.")]) := by
  have h := rate_limit_tiers
    { userRole := some "admin", ip := "203.0.113.9", userAgent := "UA"
      path := "/api/auth/sign-in", method := "POST" }
    { isDenied := true, reasonIsBot := false, reasonIsShield := false
      reasonIsRateLimit := true }
    (Or.inr (Or.inr rfl))
  exact ⟨h.2.1, h.2.2 rfl rfl rfl rfl⟩

/-- C6 counterexample: at a concrete shield-denied request, the gate's log
metadata is ip, user-agent, path AND method — not the same context a
bot-classified denial logs (ip, user-agent, path only), contrary to the
claim that the two log the same request context. -/
theorem shield_logging_counterexample :
    (securityMiddleware
        { userRole := none, ip := "203.0.113.5", userAgent := "curl/8.5.0"
          path := "/api/auth/sign-up", method := "POST" }
        (Except.ok
          { isDenied := true, reasonIsBot := false, reasonIsShield := true
            reasonIsRateLimit := false })).logs.map LogEntry.fields =
      [[("ip", "203.0.113.5"), ("userAgent", "curl/8.5.0"),
        ("path", "/api/auth/sign-up"), ("method", "POST")]] ∧
    (securityMiddleware
        { userRole := none, ip := "203.0.113.5", userAgent := "curl/8.5.0"
          path := "/api/auth/sign-up", method := "POST" }
        (Except.ok
          { isDenied := true, reasonIsBot := true, reasonIsShield := false
            reasonIsRateLimit := false })).logs.map LogEntry.fields =
      [[("ip", "203.0.113.5"), ("userAgent", "curl/8.5.0"),
        ("path", "/api/auth/sign-up")]] ∧
    (securityMiddleware
        { userRole := none, ip := "203.0.113.5", userAgent := "curl/8.5.0"
          path := "/api/auth/sign-up", method := "POST" }
        (Except.ok
          { isDenied := true, reasonIsBot := false, reasonIsShield := true
            reasonIsRateLimit := false })).logs.map LogEntry.fields ≠
    (securityMiddleware
        { userRole := none, ip := "203.0.113.5", userAgent := "curl/8.5.0"
          path := "/api/auth/sign-up", method := "POST" }
        (Except.ok
          { isDenied := true, reasonIsBot := true, reasonIsShield := false
            reasonIsRateLimit := false })).logs.map LogEntry.fields := by
  refine ⟨rfl, rfl, ?_⟩
  decide

/-- C6 amended: a shield-classified denial (denied, shield reason, not also
bot-classified, since the bot check runs first) yields 403 with the
shield-specific message and is logged with ip, user-agent and path — plus,
unlike a bot denial, the request method. -/
theorem shield_denial_403 (req : SecRequest) (d : Decision)
    (hden : d.isDenied = true) (hbot : d.reasonIsBot = false)
    (hshield : d.reasonIsShield = true) :
    (securityMiddleware req (Except.ok d)).outcome =
      MWOutcome.respond 403 (Json.obj
        [("error", Json.str "Access denied for bots"),
         ("message", Json.str "Request blocked by Shield.")]) ∧
    (securityMiddleware req (Except.ok d)).logs =
      [{ level := "warn", msg := "Shield request blocked"
         fields := [("ip", req.ip), ("userAgent", req.userAgent),
                    ("path", req.path), ("method", req.method)] }] := by
  constructor <;> simp [securityMiddleware, hden, hbot, hshield]

/-- Witness for the amended C6 at a concrete shield-denied request. -/
theorem shield_denial_403_witness :
    (securityMiddleware
        { userRole := some "user", ip := "192.0.2.14", userAgent := "curl/8.5.0"
          path := "/api/auth", method := "GET" }
        (Except.ok
          { isDenied := true, reasonIsBot := false, reasonIsShield := true
            reasonIsRateLimit := false })).outcome =
      MWOutcome.respond 403 (Json.obj
        [("error", Json.str "Access denied for bots"),
         ("message", Json.str "Request blocked by Shield.")]) ∧
    (securityMiddleware
        { userRole := some "user", ip := "192.0.2.14", userAgent := "curl/8.5.0"
          path := "/api/auth", method := "GET" }
        (Except.ok
          { isDenied := true, reasonIsBot := false, reasonIsShield := true
            reasonIsRateLimit := false })).logs =
      [{ level := "warn", msg := "Shield request blocked"
         fields := [("ip", "192.0.2.14"), ("userAgent", "curl/8.5.0"),
                    ("path", "/api/auth"), ("method", "GET")] }] :=
  shield_denial_403 _ _ rfl rfl rfl

/-- C3 (code bug): `formatValidator` reads an unbound variable `errors`, so a
shape-validation failure raises `ReferenceError: errors is not defined`
inside the controller's `try` block; the `catch` does not recognize it and
forwards it with `next(error)` to the generic error handler.  The response
is therefore not the claimed 400 with a detail list — evaluated here for
both controllers at a concrete failed validation. -/
theorem validation_failure_propagates :
    signup (fun p => some ("2b10" ++ p)) (fun _ _ _ => "jwt") "development"
      (SafeParseResult.failure { issues := ["Name is required"] })
      { rows := [], nextId := 1, now := 0 } =
    (CtrlResult.nextErr { message := "errors is not defined" },
     { rows := [], nextId := 1, now := 0 }) ∧
    signin (fun _ _ => some true) (fun _ _ _ => "jwt") "development"
      (SafeParseResult.failure { issues := ["Email is required"] })
      { rows := [], nextId := 1, now := 0 } =
    (CtrlResult.nextErr { message := "errors is not defined" },
     ["Signin error: errors is not defined"]) := by
  constructor <;> rfl

/-- C1: when the signup email already has a persisted record, `createUser`
signals the sentinel domain condition `user already exists` (no insert
happens), the controller answers 409, and the database state returned by the
controller is the original one — the store is unchanged. -/
theorem duplicate_signup_409 (bcryptHash : String → Option String)
    (signToken : Nat → String → String → String) (nodeEnv : String)
    (db : Database) (d : SignupData)
    (hdup : ∃ u ∈ db.rows, u.email = d.email) :
    createUser bcryptHash db d.name d.email d.password d.role =
      Except.error { message := "user already exists" } ∧
    signup bcryptHash signToken nodeEnv (SafeParseResult.success d) db =
      (CtrlResult.respond
        { status := 409
          body := Json.obj [("error", Json.str "User already exists")]
          setCookies := [], clearedCookies := [] }, db) := by
  obtain ⟨u, hu, he⟩ := hdup
  have hfil : db.rows.filter (fun v => v.email == d.email) ≠ [] := by
    intro hnil
    have hmem : u ∈ db.rows.filter (fun v => v.email == d.email) := by
      simp [List.mem_filter, hu, he]
    rw [hnil] at hmem
    cases hmem
  have hcu : createUser bcryptHash db d.name d.email d.password d.role =
      Except.error { message := "user already exists" } := by
    unfold createUser
    cases hc : db.rows.filter (fun v => v.email == d.email) with
    | nil => exact absurd hc hfil
    | cons a t => simp [hc]
  refine ⟨hcu, ?_⟩
  simp [signup, signupTry, hcu]

/-- Witness for C1: signing up a second time with the already-registered
email `a@b.com` yields 409 and leaves the single-row store unchanged. -/
theorem duplicate_signup_409_witness :
    signup (fun p => some ("2b10" ++ p)) (fun _ _ _ => "jwt") "development"
      (SafeParseResult.success
        { name := "Al Again", email := "a@b.com", password := "secret1"
          role := none })
      { rows := [{ id := 1, name := "Al", email := "a@b.com"
                   password := "2b10secret1", role := "user"
                   createdAt := 0, updatedAt := 0 }]
        nextId := 2, now := 7 } =
    (CtrlResult.respond
      { status := 409
        body := Json.obj [("error", Json.str "User already exists")]
        setCookies := [], clearedCookies := [] },
     { rows := [{ id := 1, name := "Al", email := "a@b.com"
                  password := "2b10secret1", role := "user"
                  createdAt := 0, updatedAt := 0 }]
       nextId := 2, now := 7 }) :=
  (duplicate_signup_409 (fun p => some ("2b10" ++ p)) (fun _ _ _ => "jwt")
    "development"
    { rows := [{ id := 1, name := "Al", email := "a@b.com"
                 password := "2b10secret1", role := "user"
                 createdAt := 0, updatedAt := 0 }]
      nextId := 2, now := 7 }
    { name := "Al Again", email := "a@b.com", password := "secret1"
      role := none }
    ⟨{ id := 1, name := "Al", email := "a@b.com", password := "2b10secret1"
       role := "user", createdAt := 0, updatedAt := 0 },
     List.Mem.head _, rfl⟩).2

/-- C2: two shape-valid signin attempts — one with an email that matches no
persisted record, one with a stored user whose password comparison fails —
produce the same `CtrlResult`: status 401, body `{error: "Invalid email or
password"}`, no cookie set; as equal JSON trees the bodies serialize
byte-identically.  The two runs differ in their log lines, which can never
coincide. -/
theorem signin_uniform_401 (bcryptCompare : String → String → Option Bool)
    (signToken : Nat → String → String → String) (nodeEnv : String)
    (db : Database) (e1 p1 e2 p2 : String) (u : UserRec)
    (h1 : db.rows.filter (fun v => v.email == e1) = [])
    (h2 : (db.rows.filter (fun v => v.email == e2)).take 1 = [u])
    (hpw : bcryptCompare p2 u.password = some false) :
    (signin bcryptCompare signToken nodeEnv
        (SafeParseResult.success { email := e1, password := p1 }) db).fst =
      CtrlResult.respond
        { status := 401
          body := Json.obj [("error", Json.str "Invalid email or password")]
          setCookies := [], clearedCookies := [] } ∧
    (signin bcryptCompare signToken nodeEnv
        (SafeParseResult.success { email := e2, password := p2 }) db).fst =
      (signin bcryptCompare signToken nodeEnv
        (SafeParseResult.success { email := e1, password := p1 }) db).fst ∧
    (signin bcryptCompare signToken nodeEnv
        (SafeParseResult.success { email := e1, password := p1 }) db).snd ≠
      (signin bcryptCompare signToken nodeEnv
        (SafeParseResult.success { email := e2, password := p2 }) db).snd := by
  have ha1 : authenticateUser bcryptCompare db e1 p1 =
      (Except.error { message := "invalid credentials" },
       ["Authentication failed: user not found for email " ++ e1]) := by
    unfold authenticateUser
    simp [h1]
  have ha2 : authenticateUser bcryptCompare db e2 p2 =
      (Except.error { message := "invalid credentials" },
       ["Authentication failed: invalid password for email " ++ e2]) := by
    unfold authenticateUser
    rw [h2]
    simp [comparePassword, hpw]
  have hs1 : signin bcryptCompare signToken nodeEnv
      (SafeParseResult.success { email := e1, password := p1 }) db =
      (CtrlResult.respond
        { status := 401
          body := Json.obj [("error", Json.str "Invalid email or password")]
          setCookies := [], clearedCookies := [] },
       ["Authentication failed: user not found for email " ++ e1,
        "Signin error: invalid credentials"]) := by
    simp [signin, signinTry, ha1]
  have hs2 : signin bcryptCompare signToken nodeEnv
      (SafeParseResult.success { email := e2, password := p2 }) db =
      (CtrlResult.respond
        { status := 401
          body := Json.obj [("error", Json.str "Invalid email or password")]
          setCookies := [], clearedCookies := [] },
       ["Authentication failed: invalid password for email " ++ e2,
        "Signin error: invalid credentials"]) := by
    simp [signin, signinTry, ha2]
  rw [hs1, hs2]
  refine ⟨rfl, rfl, ?_⟩
  intro hlog
  exact auth_failure_logs_distinct e1 e2 (List.head_eq_of_cons_eq hlog)

/-- Witness for C2 at a concrete store: an unknown email and a known email
with a failing password comparison both yield the identical 401 response,
while the log lines differ. -/
theorem signin_uniform_401_witness :
    (signin (fun _ _ => some false) (fun _ _ _ => "jwt") "development"
        (SafeParseResult.success { email := "ghost@x.com", password := "pw1" })
        { rows := [{ id := 7, name := "Bo", email := "b@c.com"
                     password := "2b10hash", role := "user"
                     createdAt := 3, updatedAt := 4 }]
          nextId := 8, now := 9 }).fst =
      CtrlResult.respond
        { status := 401
          body := Json.obj [("error", Json.str "Invalid email or password")]
          setCookies := [], clearedCookies := [] } ∧
    (signin (fun _ _ => some false) (fun _ _ _ => "jwt") "development"
        (SafeParseResult.success { email := "b@c.com", password := "pw2" })
        { rows := [{ id := 7, name := "Bo", email := "b@c.com"
                     password := "2b10hash", role := "user"
                     createdAt := 3, updatedAt := 4 }]
          nextId := 8, now := 9 }).fst =
      (signin (fun _ _ => some false) (fun _ _ _ => "jwt") "development"
        (SafeParseResult.success { email := "ghost@x.com", password := "pw1" })
        { rows := [{ id := 7, name := "Bo", email := "b@c.com"
                     password := "2b10hash", role := "user"
                     createdAt := 3, updatedAt := 4 }]
          nextId := 8, now := 9 }).fst ∧
    (signin (fun _ _ => some false) (fun _ _ _ => "jwt") "development"
        (SafeParseResult.success { email := "ghost@x.com", password := "pw1" })
        { rows := [{ id := 7, name := "Bo", email := "b@c.com"
                     password := "2b10hash", role := "user"
                     createdAt := 3, updatedAt := 4 }]
          nextId := 8, now := 9 }).snd ≠
      (signin (fun _ _ => some false) (fun _ _ _ => "jwt") "development"
        (SafeParseResult.success { email := "b@c.com", password := "pw2" })
        { rows := [{ id := 7, name := "Bo", email := "b@c.com"
                     password := "2b10hash", role := "user"
                     createdAt := 3, updatedAt := 4 }]
          nextId := 8, now := 9 }).snd :=
  signin_uniform_401 (fun _ _ => some false) (fun _ _ _ => "jwt") "development"
    { rows := [{ id := 7, name := "Bo", email := "b@c.com"
                 password := "2b10hash", role := "user"
                 createdAt := 3, updatedAt := 4 }]
      nextId := 8, now := 9 }
    "ghost@x.com" "pw1" "b@c.com" "pw2"
    { id := 7, name := "Bo", email := "b@c.com", password := "2b10hash"
      role := "user", createdAt := 3, updatedAt := 4 }
    rfl rfl rfl

/-- C4: a successful signup responds 201 and a successful signin responds 200
with user fields exactly `{id, name, email, role}` — the body never carries a
password or hash — and `authenticateUser` returns the stored row with its
`password` field stripped. -/
theorem success_response_shape (bcryptHash : String → Option String)
    (bcryptCompare : String → String → Option Bool)
    (signToken : Nat → String → String → String) (nodeEnv : String)
    (dbu dbi : Database) (du : SignupData) (di : SigninData)
    (ru ri : HttpResponse) (dbu' : Database) (lgs : List String)
    (hsu : signup bcryptHash signToken nodeEnv (SafeParseResult.success du) dbu =
      (CtrlResult.respond ru, dbu'))
    (h201 : ru.status = 201)
    (hsi : signin bcryptCompare signToken nodeEnv (SafeParseResult.success di) dbi =
      (CtrlResult.respond ri, lgs))
    (h200 : ri.status = 200) :
    (∃ i n em ro, ru.body = Json.obj
        [("message", Json.str "User signed up successfully"),
         ("user", Json.obj [("id", Json.num i), ("name", Json.str n),
                            ("email", Json.str em), ("role", Json.str ro)])]) ∧
    (∃ i n em ro, ri.body = Json.obj
        [("message", Json.str "User signed in successfully"),
         ("user", Json.obj [("id", Json.num i), ("name", Json.str n),
                            ("email", Json.str em), ("role", Json.str ro)])]) ∧
    (∀ su morelogs,
      authenticateUser bcryptCompare dbi di.email di.password =
        (Except.ok su, morelogs) →
      ∃ u0, u0 ∈ dbi.rows ∧
        su = { id := u0.id, name := u0.name, email := u0.email
               role := u0.role, createdAt := u0.createdAt
               updatedAt := u0.updatedAt }) := by
  refine ⟨?_, ?_, ?_⟩
  · cases hcu : createUser bcryptHash dbu du.name du.email du.password du.role with
    | error e =>
        simp only [signup, signupTry, hcu] at hsu
        split at hsu
        · injection hsu with hA hB
          injection hA with hA'
          rw [← hA'] at h201
          exact absurd h201 (by decide)
        · injection hsu with hA hB
          exact CtrlResult.noConfusion hA
    | ok p =>
        obtain ⟨user, db2⟩ := p
        simp only [signup, signupTry, hcu] at hsu
        injection hsu with hA hB
        injection hA with hA'
        exact ⟨user.id, user.name, user.email, user.role, by rw [← hA']⟩
  · cases hau : authenticateUser bcryptCompare dbi di.email di.password with
    | mk fst logs =>
        cases fst with
        | error e =>
            simp only [signin, signinTry, hau] at hsi
            split at hsi
            · injection hsi with hA hB
              injection hA with hA'
              rw [← hA'] at h200
              exact absurd h200 (by decide)
            · injection hsi with hA hB
              exact CtrlResult.noConfusion hA
        | ok user =>
            simp only [signin, signinTry, hau] at hsi
            injection hsi with hA hB
            injection hA with hA'
            exact ⟨user.id, user.name, user.email, user.role, by rw [← hA']⟩
  · intro su morelogs ha
    cases htk : (dbi.rows.filter (fun v => v.email == di.email)).take 1 with
    | nil =>
        rw [authenticateUser, htk] at ha
        simp at ha
    | cons u0 t =>
        have hmem : u0 ∈ dbi.rows := by
          have h0 : u0 ∈ (dbi.rows.filter (fun v => v.email == di.email)).take 1 := by
            rw [htk]; exact List.Mem.head t
          exact List.mem_filter.mp (List.take_subset _ _ h0) |>.1
        rw [authenticateUser, htk] at ha
        cases hcp : bcryptCompare di.password u0.password with
        | none =>
            simp only [comparePassword, hcp] at ha
            simp at ha
        | some b =>
            simp only [comparePassword, hcp] at ha
            cases b with
            | false => simp at ha
            | true =>
                simp at ha
                exact ⟨u0, hmem, ha.1.symm⟩

/-- Witness for C4: a concrete successful signup (fresh email, 201) and a
concrete successful signin (matching password, 200) both expose exactly
`{id, name, email, role}` in the `user` object, and `authenticateUser`
returns the stored row stripped of its password. -/
theorem success_response_shape_witness :
    (∃ i n em ro,
      (HttpResponse.mk 201
        (Json.obj
          [("message", Json.str "User signed up successfully"),
           ("user", Json.obj [("id", Json.num 1), ("name", Json.str "Al"),
                              ("email", Json.str "a@b.com"),
                              ("role", Json.str "admin")])])
        [{ name := "token", value := "jwt"
           attrs := { httpOnly := true, secure := false, sameSite := "Lax"
                      maxAge := 900000 } }]
        []).body = Json.obj
        [("message", Json.str "User signed up successfully"),
         ("user", Json.obj [("id", Json.num i), ("name", Json.str n),
                            ("email", Json.str em), ("role", Json.str ro)])]) ∧
    (∃ i n em ro,
      (HttpResponse.mk 200
        (Json.obj
          [("message", Json.str "User signed in successfully"),
           ("user", Json.obj [("id", Json.num 7), ("name", Json.str "Bo"),
                              ("email", Json.str "b@c.com"),
                              ("role", Json.str "user")])])
        [{ name := "token", value := "jwt"
           attrs := { httpOnly := true, secure := false, sameSite := "Lax"
                      maxAge := 900000 } }]
        []).body = Json.obj
        [("message", Json.str "User signed in successfully"),
         ("user", Json.obj [("id", Json.num i), ("name", Json.str n),
                            ("email", Json.str em), ("role", Json.str ro)])]) ∧
    (∀ su morelogs,
      authenticateUser (fun p h => some (h == "2b10" ++ p))
        { rows := [{ id := 7, name := "Bo", email := "b@c.com"
                     password := "2b10pw", role := "user"
                     createdAt := 3, updatedAt := 4 }]
          nextId := 8, now := 9 }
        (SigninData.mk "b@c.com" "pw").email (SigninData.mk "b@c.com" "pw").password =
        (Except.ok su, morelogs) →
      ∃ u0, u0 ∈ ({ rows := [{ id := 7, name := "Bo", email := "b@c.com"
                               password := "2b10pw", role := "user"
                               createdAt := 3, updatedAt := 4 }]
                    nextId := 8, now := 9 } : Database).rows ∧
        su = { id := u0.id, name := u0.name, email := u0.email
               role := u0.role, createdAt := u0.createdAt
               updatedAt := u0.updatedAt }) :=
  success_response_shape (fun p => some ("2b10" ++ p))
    (fun p h => some (h == "2b10" ++ p)) (fun _ _ _ => "jwt") "development"
    { rows := [], nextId := 1, now := 0 }
    { rows := [{ id := 7, name := "Bo", email := "b@c.com"
                 password := "2b10pw", role := "user"
                 createdAt := 3, updatedAt := 4 }]
      nextId := 8, now := 9 }
    { name := "Al", email := "a@b.com", password := "secret1", role := some "admin" }
    (SigninData.mk "b@c.com" "pw")
    (HttpResponse.mk 201
      (Json.obj
        [("message", Json.str "User signed up successfully"),
         ("user", Json.obj [("id", Json.num 1), ("name", Json.str "Al"),
                            ("email", Json.str "a@b.com"),
                            ("role", Json.str "admin")])])
      [{ name := "token", value := "jwt"
         attrs := { httpOnly := true, secure := false, sameSite := "Lax"
                    maxAge := 900000 } }]
      [])
    (HttpResponse.mk 200
      (Json.obj
        [("message", Json.str "User signed in successfully"),
         ("user", Json.obj [("id", Json.num 7), ("name", Json.str "Bo"),
                            ("email", Json.str "b@c.com"),
                            ("role", Json.str "user")])])
      [{ name := "token", value := "jwt"
         attrs := { httpOnly := true, secure := false, sameSite := "Lax"
                    maxAge := 900000 } }]
      [])
    { rows := [{ id := 1, name := "Al", email := "a@b.com"
                 password := "2b10secret1", role := "admin"
                 createdAt := 0, updatedAt := 0 }]
      nextId := 2, now := 0 }
    ["User authenticated with id: 7, email: b@c.com",
     "User signed in with email: b@c.com, role: user"]
    rfl rfl rfl rfl
